import Mathlib

/-!
# Verification of restlib2's HTTP request pipeline

A shallow embedding of the request-processing core of the `restlib2`
repository (`restlib2/resources.py`, with its early werkzeug prototype
`resources/models.py` where a claim refers to it), together with the media
type matcher of the `mimeparse` dependency that `resources.py` imports.

Conventions of the embedding:

* Python strings are Lean `String`s; the character-level helpers below
  re-implement the Python `str.split`, `str.strip` operations on `List Char`
  so that every definition evaluates inside the kernel.
* Python `dict`s built from key/value pair lists are association lists with
  later entries overriding earlier ones (`dictInsert`).
* Fallible Python code (a raised exception) is `Option`/a `crash` result.
* HTTP-date header values (`If-Modified-Since`, `If-Unmodified-Since`) are
  represented by their parsed value in seconds since the epoch, i.e. the
  result of `django.utils.http.parse_http_date`; HTTP dates have one-second
  resolution, so instants are `Nat` seconds.
-/

namespace Restlib2

/-! ## Character-list string utilities -/

/-- Whitespace recognised by Python's `str.strip` (ASCII subset). -/
def isPyWs (c : Char) : Bool :=
  c == ' ' || c == '\t' || c == '\n' || c == '\r' || c == '\x0b' || c == '\x0c'

/-- `str.strip` on a character list. -/
def trimChars (l : List Char) : List Char :=
  ((l.dropWhile isPyWs).reverse.dropWhile isPyWs).reverse

/-- `str.split(sep)` on a character list (keeps empty pieces, like Python). -/
def splitChars (sep : Char) (l : List Char) : List (List Char) :=
  l.foldr
    (fun c acc =>
      match acc with
      | cur :: rest => if c == sep then [] :: cur :: rest else (c :: cur) :: rest
      | [] => [[c]])
    [[]]

/-- `str.split(sep, 1)`: split at the first occurrence of `sep`;
`none` when `sep` does not occur. -/
def splitOnceChars (sep : Char) : List Char → Option (List Char × List Char)
  | [] => none
  | c :: rest =>
    if c == sep then some ([], rest)
    else
      match splitOnceChars sep rest with
      | some (a, b) => some (c :: a, b)
      | none => none

/-- `str.split(sep)` on `String`s. -/
def splitStr (sep : Char) (s : String) : List String :=
  (splitChars sep s.data).map (fun l => ⟨l⟩)

/-- `str.strip()` on `String`s. -/
def strip (s : String) : String := ⟨trimChars s.data⟩

/-- All characters are decimal digits and the list is non-empty. -/
def isDigits (l : List Char) : Bool := !l.isEmpty && l.all (fun c => c.isDigit)

/-- Decimal value of a digit list. -/
def digitsToNat (l : List Char) : Nat :=
  l.foldl (fun acc c => acc * 10 + (c.toNat - 48)) 0

/-- Association-list update with Python `dict` semantics: a later binding
of the same key overrides the earlier one, an absent key is appended.
(Keys stay unique, as in a `dict`.) -/
def dictInsert : List (String × String) → String × String → List (String × String)
  | [], kv => [kv]
  | a :: t, kv => if a.1 == kv.1 then (a.1, kv.2) :: t else a :: dictInsert t kv

/-- Association-list lookup. -/
def dictFind (l : List (String × String)) (k : String) : Option String :=
  (l.find? (fun p => p.1 == k)).map (fun p => p.2)

/-! ## The `mimeparse` dependency

`resources.py` does `import mimeparse` and calls `mimeparse.best_match` and
`mimeparse.quality`.  The library is not part of the repository; the
definitions below embed the python-mimeparse algorithm in the form the
repository's own test suite relies on (media ranges rating a type at
quality 0 are preserved, so that `Accept: */*;q=0` can force a 406).

Quality values are represented in thousandths (`q : Nat`, `0 ≤ q ≤ 1000`);
RFC 7231 gives qvalues at most three decimal places, and the decimal parser
below truncates anything beyond the third place.  Exponent float forms are
not modelled (treated as malformed, defaulting to quality 1). -/

/-- Parse a decimal literal (`1`, `0.8`, `.5`, `2.`) into thousandths.
`none` models a `float()` conversion failure. -/
def parseQMillis (s : String) : Option Nat :=
  let l := trimChars s.data
  match splitOnceChars '.' l with
  | none => if isDigits l then some (digitsToNat l * 1000) else none
  | some (a, b) =>
    if (a.all (fun c => c.isDigit)) && (b.all (fun c => c.isDigit)) &&
        !(a.isEmpty && b.isEmpty) then
      some (digitsToNat a * 1000 + digitsToNat ((b ++ ['0', '0', '0']).take 3))
    else none

/-- A parsed media range: type, subtype, parameters and quality. -/
structure MediaRange where
  mtype : String
  msub : String
  params : List (String × String)
  q : Nat
deriving Repr, DecidableEq

/-- One `key=value` parameter piece; `none` when there is no `=`
(in Python the 1-tuple then blows up the `dict(...)` construction). -/
def parseParam (l : List Char) : Option (String × String) :=
  match splitOnceChars '=' l with
  | some (k, v) => some (⟨trimChars k⟩, ⟨trimChars v⟩)
  | none => none

/-- `mimeparse.parse_mime_type`: split on `;`, parse parameters, normalise a
bare `*` to `*/*`, and require exactly one `/` in the type part. -/
def parse_mime_type (s : String) :
    Option (String × String × List (String × String)) :=
  match splitChars ';' s.data with
  | [] => none
  | ft :: ps =>
    match ps.mapM parseParam with
    | none => none
    | some params =>
      let fullType := trimChars ft
      let fullType := if fullType == ['*'] then ['*', '/', '*'] else fullType
      match splitChars '/' fullType with
      | [t, sub] =>
        some (⟨trimChars t⟩, ⟨trimChars sub⟩, params.foldl dictInsert [])
      | _ => none

/-- `mimeparse.parse_media_range`: as `parse_mime_type`, plus the guarantee
that `q` holds a quality in `[0, 1]` — an absent, blank, malformed or
out-of-range `q` parameter defaults to 1 (1000 thousandths).  An explicit
`q=0` is preserved. -/
def parse_media_range (s : String) : Option MediaRange :=
  match parse_mime_type s with
  | none => none
  | some (t, sub, params) =>
    let q :=
      match dictFind params "q" with
      | none => 1000
      | some v =>
        if v == "" then 1000
        else
          match parseQMillis v with
          | none => 1000
          | some m => if m > 1000 then 1000 else m
    some { mtype := t, msub := sub, params := params, q := q }

/-- `mimeparse.fitness_and_quality_parsed`: best (fitness, quality) of a
target mime type against a list of parsed media ranges.  Fitness is 100 for
an exact type match plus 10 for an exact subtype match plus one point per
matching non-`q` parameter; no match at all leaves the initial `(-1, 0)`. -/
def fitness_and_quality_parsed (mime : String) (ranges : List MediaRange) :
    Option (Int × Nat) :=
  match parse_media_range mime with
  | none => none
  | some target =>
    some <| ranges.foldl
      (fun best r =>
        let typeMatch :=
          r.mtype == target.mtype || r.mtype == "*" || target.mtype == "*"
        let subMatch :=
          r.msub == target.msub || r.msub == "*" || target.msub == "*"
        if typeMatch && subMatch then
          let bonus : Nat :=
            (target.params.filter
              (fun kv => kv.1 != "q" && dictFind r.params kv.1 == some kv.2)).length
          let fitness : Int :=
            (if r.mtype == target.mtype then (100 : Int) else 0) +
            (if r.msub == target.msub then (10 : Int) else 0) + bonus
          if fitness > best.1 then (fitness, r.q) else best
        else best)
      ((-1 : Int), (0 : Nat))

/-- `mimeparse.quality_parsed`: the quality component. -/
def quality_parsed (mime : String) (ranges : List MediaRange) : Option Nat :=
  (fitness_and_quality_parsed mime ranges).map (fun p => p.2)

/-- `mimeparse.quality`: quality of `mime` against a raw `Accept`-style
header (split on commas, every piece parsed). -/
def quality (mime : String) (ranges : String) : Option Nat :=
  match (splitStr ',' ranges).mapM parse_media_range with
  | none => none
  | some parsed => quality_parsed mime parsed

/-- Strict lexicographic order on `((fitness, quality), position, name)`
used by `best_match`'s `weighted_matches.sort()`. -/
def wmLt (a b : (Int × Nat) × Nat × String) : Bool :=
  a.1.1 < b.1.1 ||
  (a.1.1 == b.1.1 && (a.1.2 < b.1.2 ||
    (a.1.2 == b.1.2 && (a.2.1 < b.2.1 ||
      (a.2.1 == b.2.1 && decide (a.2.2 < b.2.2))))))

/-- `mimeparse.best_match`: the supported type best matching the header, or
`""` when the best quality is 0.  `none` models the exceptions the Python
code can raise: a malformed media range, or indexing `weighted_matches[-1]`
when `supported` is empty. -/
def best_match (supported : List String) (header : String) : Option String :=
  let splitHeader := (splitStr ',' header).filter (fun s => strip s ≠ "")
  match splitHeader.mapM parse_media_range with
  | none => none
  | some parsed =>
    match supported.mapM (fun mt => fitness_and_quality_parsed mt parsed) with
    | none => none
    | some fqs =>
      let weighted := (fqs.zip supported.enum).map (fun p => (p.1, p.2.1, p.2.2))
      match weighted with
      | [] => none
      | w :: ws =>
        let best := ws.foldl (fun b x => if wmLt b x then x else b) w
        some (if best.1.2 == 0 then "" else best.2.2)

/-! ## Django helpers used by `resources.py`

`parse_etags`/`quote_etag` come from `django.utils.http`; `http_date`
renders an instant as an HTTP-date string (the rendering is abstract here:
only where it is applied matters to the claims). -/

/-- Abstract rendering of `django.utils.http.http_date` for an epoch-seconds
instant. -/
def http_date (d : Nat) : String := "http-date:" ++ toString d

/-- `django.utils.http.parse_etags` restricted to tags without embedded
escaped quotes: the contents of the quoted segments of the header, or the
whole header as one opaque tag when nothing is quoted. -/
def parse_etags (s : String) : List String :=
  let pieces := splitChars '"' s.data
  let quoted := (pieces.enum.filter (fun p => p.1 % 2 == 1)).map
    (fun p => (⟨p.2⟩ : String))
  if quoted.isEmpty then [s] else quoted

/-- `django.utils.http.quote_etag`. -/
def quote_etag (s : String) : String :=
  if s.startsWith "\"" || s.startsWith "W/\"" then s else "\"" ++ s ++ "\""

/-- Stand-in for `hashlib.md5(content).hexdigest()`: an injective digest
whose concrete values never matter to the development, only where it is
applied. -/
def md5_hexdigest (content : String) : String := "md5:" ++ content

/-- Insertion step for lexicographic string sorting. -/
def insertSorted (s : String) : List String → List String
  | [] => [s]
  | t :: rest => if decide (s ≤ t) then s :: t :: rest else t :: insertSorted s rest

/-- Python's `sorted` on a list of strings. -/
def sortStrings (l : List String) : List String := l.foldr insertSorted []

/-! ## Data model -/

/-- The request data the pipeline consults.  Header values are `Option`s
(`none` = header absent); the HTTP-date conditional headers carry their
parsed epoch-seconds value. -/
structure Request where
  method : String
  content_length : Nat := 0
  content_type : Option String := none
  accept : Option String := none
  accept_language : Option String := none
  accept_charset : Option String := none
  accept_encoding : Option String := none
  if_match : Option String := none
  if_none_match : Option String := none
  if_modified_since : Option Nat := none
  if_unmodified_since : Option Nat := none
deriving Repr, DecidableEq

/-- A Django `HttpResponse`: status (default 200), headers, the
`Cache-Control` directives (kept structured, as `patch_cache_control`
manipulates them), and the body. -/
structure Response where
  status : Nat := 200
  headers : List (String × String) := []
  cache_control : List String := []
  content : String := ""
deriving Repr, DecidableEq

/-- Set (or replace) a header. -/
def Response.set_header (r : Response) (k v : String) : Response :=
  { r with headers := dictInsert r.headers (k, v) }

/-- Header presence. -/
def Response.has_header (r : Response) (k : String) : Bool :=
  r.headers.any (fun p => p.1 == k)

/-- Header lookup. -/
def Response.get_header (r : Response) (k : String) : Option String :=
  dictFind r.headers k

/-- The `unavailable` class attribute: `False`, `True`, an `int` seconds
delta, or a `datetime` (kept as epoch seconds). -/
inductive Unavailable where
  | off
  | on
  | secs (n : Int)
  | date (d : Nat)
deriving Repr, DecidableEq

/-- Python truthiness of `unavailable` (`0` is falsy). -/
def Unavailable.truthy : Unavailable → Bool
  | .off => false
  | .on => true
  | .secs n => n ≠ 0
  | .date _ => true

/-- The `cache_max_age` class attribute: unset, an `int` of seconds, or a
`timedelta` — the latter is represented by the absolute expiry instant
`datetime.now() + delta` that `get_cache_timeout` computes from it. -/
inductive CacheMaxAge where
  | unset
  | secs (n : Int)
  | delta_expires (d : Nat)
deriving Repr, DecidableEq

/-- What a method handler returns: a ready `HttpResponse`, or raw content
(`none` = Python `None`; non-string payloads that go through the serializer
codecs are external collaborators and are not modelled). -/
inductive HandlerOut where
  | hres (r : Response)
  | content (c : Option String)
deriving Repr, DecidableEq

/-- A `Resource` as configured after the metaclass has run: the class
attributes of `restlib2/resources.py`, plus the overridable hook methods as
function fields (the source's defaults are the record's defaults). -/
structure Resource where
  unavailable : Unavailable := .off
  allowed_methods : List String := ["OPTIONS"]
  rate_limit_count : Nat := 0
  rate_limit_seconds : Nat := 60 * 60
  max_request_entity_length : Option Nat := none
  supported_accept_types : List String := ["application/json"]
  supported_content_types : List String := ["application/json"]
  supported_patch_types : List String := ["application/json"]
  require_conditional_request : Bool := false
  use_etags : Bool := false
  use_last_modified : Bool := false
  cache_max_age : CacheMaxAge := .unset
  cache_type : Option String := none
  cache_no_store : Bool := false
  cache_must_revalidate : Bool := false
  is_unauthorized : Request → Bool := fun _ => false
  is_forbidden : Request → Bool := fun _ => false
  is_too_many_requests : Request → Bool := fun _ => false
  is_not_found : Request → Bool := fun _ => false
  is_gone : Request → Bool := fun _ => false
  get_etag : Request → String → Option String := fun _ _ => none
  get_last_modified : Request → Nat := fun _ => 0
  handle : Request → HandlerOut := fun _ => .content none

/-! ## Status-code checks (`is_*` methods of `Resource`)

The source's checks return a boolean and occasionally set a header on the
shared response just before returning `True`; each such check is embedded
as a pure predicate plus a response builder applied at the failure point. -/

/-- `Resource.is_service_unavailable`'s boolean outcome. -/
def is_service_unavailable (R : Resource) : Bool := R.unavailable.truthy

/-- The `Retry-After` value `is_service_unavailable` computes: a positive
`int` is used directly, a `datetime` goes through `http_date`, anything
else gives no header. -/
def retry_after (R : Resource) : Option String :=
  match R.unavailable with
  | .secs n => if n > 0 then some (toString n) else none
  | .date d => some (http_date d)
  | _ => none

/-- The 503 response `is_service_unavailable` leaves behind. -/
def service_unavailable_response (R : Resource) : Response :=
  let resp : Response := {}
  let resp :=
    match retry_after R with
    | some v => resp.set_header "Retry-After" v
    | none => resp
  { resp with status := 503 }

/-- Both `rate_limit_count` and `rate_limit_seconds` must be truthy for the
429 check to run. -/
def rate_limit_configured (R : Resource) : Bool :=
  R.rate_limit_count ≠ 0 && R.rate_limit_seconds ≠ 0

/-- `max_request_entity_length` truthiness gate around the 413 check. -/
def max_entity_configured (R : Resource) : Bool :=
  match R.max_request_entity_length with
  | some m => m ≠ 0
  | none => false

/-- `Resource.is_request_entity_too_large`:
`request.META['CONTENT_LENGTH'] > self.max_request_entity_length`.
(When the bound is `None` the Python 2 comparison `int > None` is always
true; the pipeline's gate keeps that branch unreachable.) -/
def is_request_entity_too_large (R : Resource) (req : Request) : Bool :=
  match R.max_request_entity_length with
  | some m => req.content_length > m
  | none => true

/-- `', '.join(sorted(self.allowed_methods))`. -/
def allow_header (R : Resource) : String :=
  ", ".intercalate (sortStrings R.allowed_methods)

/-- `Resource.is_method_not_allowed`'s boolean outcome. -/
def is_method_not_allowed (R : Resource) (req : Request) : Bool :=
  !R.allowed_methods.contains req.method

/-- The 405 response, carrying the `Allow` header the check sets. -/
def method_not_allowed_response (R : Resource) : Response :=
  { (({} : Response).set_header "Allow" (allow_header R)) with status := 405 }

/-- `Resource.content_type_supported`: `best_match` of the request
`Content-Type` against the supported content types (listed reversed, so
that earlier-configured types win `best_match`'s last-wins tie-break). -/
def content_type_supported (R : Resource) (req : Request) : Option Bool :=
  match req.content_type with
  | none => none
  | some ct =>
    (best_match R.supported_content_types.reverse ct).map (fun m => m ≠ "")

/-- `Resource.content_encoding_supported` (default: everything). -/
def content_encoding_supported (_R : Resource) (_req : Request) : Bool := true

/-- `Resource.content_language_supported` (default: everything). -/
def content_language_supported (_R : Resource) (_req : Request) : Bool := true

/-- `Resource.is_unsupported_media_type`: only checks anything when the
request carries a `Content-Type` header. -/
def is_unsupported_media_type (R : Resource) (req : Request) : Option Bool :=
  match req.content_type with
  | some _ =>
    match content_type_supported R req with
    | none => none
    | some false => some true
    | some true =>
      if !content_encoding_supported R req then some true
      else if !content_language_supported R req then some true
      else some false
  | none => some false

/-- `Resource.accept_type_supported`.  Returns `(ok, selected)`:
on a `best_match` hit the matched type is selected; with no header, or as
permissive fallback when nothing matched but the header does not rate `*/*`
at quality 0, the first supported accept type (if any) is selected.
`none` models an exception from `mimeparse`. -/
def accept_type_supported (R : Resource) (req : Request) :
    Option (Bool × Option String) :=
  let fallback : Bool × Option String := (true, R.supported_accept_types.head?)
  match req.accept with
  | some accept_type =>
    match best_match R.supported_accept_types.reverse accept_type with
    | none => none
    | some m =>
      if m ≠ "" then some (true, some m)
      else
        match quality "*/*" accept_type with
        | none => none
        | some q => if q == 0 then some (false, none) else some fallback
  | none => some fallback

/-- `Resource.accept_charset_supported` (default: everything). -/
def accept_charset_supported (_R : Resource) (_req : Request) : Bool := true

/-- `Resource.accept_encoding_supported` (default: everything). -/
def accept_encoding_supported (_R : Resource) (_req : Request) : Bool := true

/-- `Resource.accept_language_supported` (default: everything). -/
def accept_language_supported (_R : Resource) (_req : Request) : Bool := true

/-- `Resource.is_not_acceptable`: the `Accept` negotiation check runs
unconditionally; the `Accept-Language`/`Charset`/`Encoding` checks only
when the corresponding header is present. -/
def is_not_acceptable (R : Resource) (req : Request) : Option Bool :=
  match accept_type_supported R req with
  | none => none
  | some (ok, _) =>
    if !ok then some true
    else if req.accept_language.isSome && !accept_language_supported R req then
      some true
    else if req.accept_charset.isSome && !accept_charset_supported R req then
      some true
    else if req.accept_encoding.isSome && !accept_encoding_supported R req then
      some true
    else some false

/-- `Resource.is_precondition_required`: a conditional header is missing
for an enabled validation mechanism. -/
def is_precondition_required (R : Resource) (req : Request) : Bool :=
  (R.use_etags && req.if_match.isNone) ||
  (R.use_last_modified && req.if_unmodified_since.isNone)

/-- `Resource.is_precondition_failed`: `If-Match` tag mismatch against the
current tag (a `None` current tag never equals a string), or
`If-Unmodified-Since` instant differing from the current last-modified
instant. -/
def is_precondition_failed (R : Resource) (req : Request) : Bool :=
  (match R.use_etags, req.if_match with
   | true, some h =>
     let request_etag := (parse_etags h).headD ""
     match R.get_etag req request_etag with
     | some etag => request_etag ≠ etag
     | none => true
   | _, _ => false) ||
  (match R.use_last_modified, req.if_unmodified_since with
   | true, some known => known ≠ R.get_last_modified req
   | _, _ => false)

/-! ## Responses built by handlers and the pipeline -/

/-- `UncacheableResponse`: `Expires: 0` plus
`patch_cache_control(no_cache=True, must_revalidate=True, max_age=0)`. -/
def uncacheable (status : Nat) : Response :=
  { status := status, headers := [("Expires", "0")],
    cache_control := ["no-cache", "must-revalidate", "max-age=0"],
    content := "" }

/-- The built-in `options` handler: an `UncacheableResponse` with
`Accept-Patch` (when `PATCH` is allowed), `Allow` and `Content-Length`. -/
def options_response (R : Resource) : Response :=
  let resp := uncacheable 200
  let resp :=
    if R.allowed_methods.contains "PATCH" then
      resp.set_header "Accept-Patch" (", ".intercalate R.supported_patch_types)
    else resp
  let resp := resp.set_header "Allow" (allow_header R)
  resp.set_header "Content-Length" "0"

/-- The `If-None-Match` half of the conditional-GET/HEAD block: the parsed
request tag equals the current tag (a `None` current tag matches nothing). -/
def etag_not_modified (R : Resource) (req : Request) : Bool :=
  match R.use_etags, req.if_none_match with
  | true, some h =>
    let request_etag := (parse_etags h).headD ""
    match R.get_etag req request_etag with
    | some etag => request_etag == etag
    | none => false
  | _, _ => false

/-- The conditional-GET/HEAD block at the end of `process_request`: ETags
are checked before `Last-Modified`; `some r` is a terminal 304. -/
def not_modified_check (R : Resource) (req : Request) : Option Response :=
  if req.method == "GET" || req.method == "HEAD" then
    if etag_not_modified R req then some { status := 304 }
    else
      match R.use_last_modified, req.if_modified_since with
      | true, some known =>
        if known ≥ R.get_last_modified req then some { status := 304 } else none
      | _, _ => none
  else none

/-- Outcome of `Resource.process_request`: a raised exception, a terminal
response, or fall-through to handler dispatch. -/
inductive PipeResult where
  | crash
  | term (r : Response)
  | pass
deriving Repr, DecidableEq

/-- The request-entity block of `process_request`: only with a non-zero
content length, first the 415 check, then (when a bound is configured) the
413 check. -/
def entity_checks (R : Resource) (req : Request) : PipeResult :=
  if req.content_length ≠ 0 then
    match is_unsupported_media_type R req with
    | none => .crash
    | some true => .term { status := 415 }
    | some false =>
      if max_entity_configured R && is_request_entity_too_large R req then
        .term { status := 413 }
      else .pass
  else .pass

/-- `Resource.process_request`: the source's sequential `if ...: return`
chain, one clause per check, in source order. -/
def process_request (R : Resource) (req : Request) : PipeResult :=
  if is_service_unavailable R then .term (service_unavailable_response R)
  else if R.is_unauthorized req then .term { status := 401 }
  else if R.is_forbidden req then .term { status := 403 }
  else if rate_limit_configured R && R.is_too_many_requests req then
    .term { status := 429 }
  else if req.method == "OPTIONS" && R.allowed_methods.contains "OPTIONS" then
    .term (options_response R)
  else
    match entity_checks R req with
    | .crash => .crash
    | .term r => .term r
    | .pass =>
      if is_method_not_allowed R req then .term (method_not_allowed_response R)
      else
        match is_not_acceptable R req with
        | none => .crash
        | some true => .term { status := 406 }
        | some false =>
          if R.is_not_found req then .term { status := 404 }
          else if R.is_gone req then .term { status := 410 }
          else if R.require_conditional_request &&
              (req.method == "PUT" || req.method == "PATCH") &&
              is_precondition_required R req then
            .term (uncacheable 428)
          else if (req.method == "PUT" || req.method == "PATCH") &&
              is_precondition_failed R req then
            .term (uncacheable 412)
          else
            match not_modified_check R req with
            | some r => .term r
            | none => .pass

/-! ## Response post-processing -/

/-- `Resource.write` restricted to string-or-`None` content (non-string
payload encoding goes through the external serializer codecs): `None`
content means 204, a string becomes the body. -/
def write (resp : Response) (c : Option String) : Response :=
  match c with
  | none => { resp with status := 204 }
  | some s => { resp with content := s }

/-- Django's `patch_cache_control`: merge directives into the response's
`Cache-Control` (directive order in the source is Python-dict order and so
unspecified; the claims only consult membership). -/
def patch_cache_control (resp : Response) (attrs : List String) : Response :=
  if attrs.isEmpty then resp
  else
    { resp with
      cache_control :=
        attrs.foldl (fun acc d => if acc.contains d then acc else acc ++ [d])
          resp.cache_control }

/-- `Resource.response_cache_control`: a datetime timeout sets `Expires`,
an `int` timeout sets `max-age` (forcing `no-cache` when `≤ 0`), then the
`must-revalidate`/`no-store`/cache-type directives are added. -/
def response_cache_control (R : Resource) (resp : Response) : Response :=
  let st :=
    match R.cache_max_age with
    | .delta_expires d => (resp.set_header "Expires" (http_date d), ([] : List String))
    | .secs n =>
      if n ≤ 0 then (resp, ["no-cache", "max-age=0"])
      else (resp, ["max-age=" ++ toString n])
    | .unset => (resp, [])
  let resp := st.1
  let attrs := st.2
  let attrs := attrs ++ (if R.cache_must_revalidate then ["must-revalidate"] else [])
  let attrs := attrs ++ (if R.cache_no_store then ["no-store"] else [])
  let attrs := attrs ++ (match R.cache_type with | some t => [t] | none => [])
  patch_cache_control resp attrs

/-- `Resource.set_etag`: keep an upstream `ETag`, else derive one from the
body's digest (the Django-cache bookkeeping the source also does is an
unobservable external side effect). -/
def set_etag (resp : Response) : Response :=
  if resp.has_header "ETag" then resp
  else resp.set_header "ETag" (quote_etag (md5_hexdigest resp.content))

/-- `Resource.set_last_modified`: set `Last-Modified` from
`get_last_modified` when not already present (the source stores the raw
datetime; it is rendered by its epoch seconds). -/
def set_last_modified (R : Resource) (req : Request) (resp : Response) : Response :=
  if resp.has_header "Last-Modified" then resp
  else resp.set_header "Last-Modified" (toString (R.get_last_modified req))

/-- `Resource.process_response`: wrap raw handler content (discarded
outright for `HEAD`), blank any `HEAD` body, and for safe methods apply
expiration caching, `ETag` and `Last-Modified`. -/
def process_response (R : Resource) (req : Request) (out : HandlerOut) : Response :=
  let resp :=
    match out with
    | .hres r => r
    | .content c => if req.method ≠ "HEAD" then write {} c else {}
  let resp := if req.method == "HEAD" then { resp with content := "" } else resp
  if req.method == "GET" || req.method == "HEAD" then
    let resp := response_cache_control R resp
    let resp := if R.use_etags then set_etag resp else resp
    let resp := if R.use_last_modified then set_last_modified R req resp else resp
    resp
  else resp

/-- `Resource.__call__`: run the pipeline; dispatch to the method handler
when no terminal response was produced; post-process whatever resulted.
`none` models an uncaught exception. -/
def resource_call (R : Resource) (req : Request) : Option Response :=
  match process_request R req with
  | .crash => none
  | .term r => some (process_response R req (.hres r))
  | .pass => some (process_response R req (R.handle req))

/-! ## The metaclass (`ResourceMetaclass.__new__`)

`allowed_methods` computation at class-definition time.  `caps` is the set
of HTTP methods for which the class being defined has a handler; the base
`Resource` class itself always supplies `head` and `options` handlers, so
those two capabilities are always usable. -/

/-- The fixed method table of `restlib2/http.py`. -/
def http_methods : List String :=
  ["GET", "HEAD", "OPTIONS", "POST", "PUT", "DELETE", "PATCH"]

/-- `usable(new_cls, method.lower())`. -/
def usable (caps : List String) (m : String) : Bool :=
  m == "HEAD" || m == "OPTIONS" || caps.contains m

/-- "If `GET` is not allowed, remove `HEAD`". -/
def drop_head_without_get (ms : List String) : List String :=
  if !ms.contains "GET" && ms.contains "HEAD" then ms.erase "HEAD" else ms

/-- `ResourceMetaclass.__new__`'s `allowed_methods` computation: with no
explicit (truthy) `allowed_methods`, every method with a usable handler;
with an explicit list, every listed method must be usable or a
`ValueError` naming it is raised; either way `HEAD` is dropped when `GET`
is absent. -/
def build_allowed_methods (explicit : Option (List String)) (caps : List String) :
    Except String (List String) :=
  match explicit with
  | none => .ok (drop_head_without_get (http_methods.filter (usable caps)))
  | some ms =>
    if ms.isEmpty then
      .ok (drop_head_without_get (http_methods.filter (usable caps)))
    else
      match ms.find? (fun m => !usable caps m) with
      | some m => .error m
      | none => .ok (drop_head_without_get ms)

/-! ## Spec-side pipeline: an ordered list of predicate stages

§4.4 of the specification describes the pipeline as states "evaluated
strictly in this order; the first failing predicate terminates processing
and yields the indicated status; later states are never evaluated".  The
following definitions render that description literally: one stage per
state, composed by a first-match driver, to be compared with the source's
`process_request`. -/

/-- Spec state 1: service unavailable → 503. -/
def spec_stage_service_unavailable (R : Resource) (_req : Request) : PipeResult :=
  if is_service_unavailable R then .term (service_unavailable_response R) else .pass

/-- Spec state 2: unauthorized → 401. -/
def spec_stage_unauthorized (R : Resource) (req : Request) : PipeResult :=
  if R.is_unauthorized req then .term { status := 401 } else .pass

/-- Spec state 3: forbidden → 403. -/
def spec_stage_forbidden (R : Resource) (req : Request) : PipeResult :=
  if R.is_forbidden req then .term { status := 403 } else .pass

/-- Spec state 4: too many requests, only evaluated when a rate limit is
configured → 429. -/
def spec_stage_too_many_requests (R : Resource) (req : Request) : PipeResult :=
  if rate_limit_configured R && R.is_too_many_requests req then
    .term { status := 429 }
  else .pass

/-- Spec state 5: allowed `OPTIONS` requests dispatch immediately to the
built-in handler. -/
def spec_stage_options (R : Resource) (req : Request) : PipeResult :=
  if req.method == "OPTIONS" && R.allowed_methods.contains "OPTIONS" then
    .term (options_response R)
  else .pass

/-- Spec state 6a: with a body, unsupported media type → 415. -/
def spec_stage_unsupported_media_type (R : Resource) (req : Request) : PipeResult :=
  if req.content_length ≠ 0 then
    match is_unsupported_media_type R req with
    | none => .crash
    | some true => .term { status := 415 }
    | some false => .pass
  else .pass

/-- Spec state 6b: with a body and a configured bound, entity too large → 413. -/
def spec_stage_entity_too_large (R : Resource) (req : Request) : PipeResult :=
  if req.content_length ≠ 0 then
    if max_entity_configured R && is_request_entity_too_large R req then
      .term { status := 413 }
    else .pass
  else .pass

/-- Spec state 7: method not allowed → 405 with `Allow`. -/
def spec_stage_method_not_allowed (R : Resource) (req : Request) : PipeResult :=
  if is_method_not_allowed R req then .term (method_not_allowed_response R) else .pass

/-- Spec state 8: not acceptable → 406. -/
def spec_stage_not_acceptable (R : Resource) (req : Request) : PipeResult :=
  match is_not_acceptable R req with
  | none => .crash
  | some true => .term { status := 406 }
  | some false => .pass

/-- Spec state 9: not found → 404. -/
def spec_stage_not_found (R : Resource) (req : Request) : PipeResult :=
  if R.is_not_found req then .term { status := 404 } else .pass

/-- Spec state 10: gone → 410. -/
def spec_stage_gone (R : Resource) (req : Request) : PipeResult :=
  if R.is_gone req then .term { status := 410 } else .pass

/-- Spec state 11: precondition required (unsafe methods, only when
configured) → 428, non-cacheable. -/
def spec_stage_precondition_required (R : Resource) (req : Request) : PipeResult :=
  if R.require_conditional_request && (req.method == "PUT" || req.method == "PATCH")
      && is_precondition_required R req then
    .term (uncacheable 428)
  else .pass

/-- Spec state 12: precondition failed (unsafe methods) → 412, non-cacheable. -/
def spec_stage_precondition_failed (R : Resource) (req : Request) : PipeResult :=
  if (req.method == "PUT" || req.method == "PATCH") && is_precondition_failed R req then
    .term (uncacheable 412)
  else .pass

/-- Spec state 13: not modified (safe methods) → 304. -/
def spec_stage_not_modified (R : Resource) (req : Request) : PipeResult :=
  match not_modified_check R req with
  | some r => .term r
  | none => .pass

/-- First-match driver: run the stages in order; the first non-passing
stage's outcome is the pipeline's outcome and no later stage is evaluated;
if every stage passes, fall through (to handler dispatch). -/
def runStages : List (Resource → Request → PipeResult) → Resource → Request → PipeResult
  | [], _, _ => .pass
  | s :: rest, R, req =>
    match s R req with
    | .pass => runStages rest R req
    | r => r

/-- The spec's §4.4 state order. -/
def spec_pipeline : List (Resource → Request → PipeResult) :=
  [spec_stage_service_unavailable, spec_stage_unauthorized, spec_stage_forbidden,
   spec_stage_too_many_requests, spec_stage_options,
   spec_stage_unsupported_media_type, spec_stage_entity_too_large,
   spec_stage_method_not_allowed, spec_stage_not_acceptable,
   spec_stage_not_found, spec_stage_gone,
   spec_stage_precondition_required, spec_stage_precondition_failed,
   spec_stage_not_modified]

/-! ## The prototype pipeline of `resources/models.py`

The repository carries an earlier werkzeug-based prototype of the same
resource engine; several claims cite it alongside `restlib2/resources.py`.
The definitions below embed the parts of it the claims consult: its
entity-size check (claim C5) and the check chain of its
`Resource.process` (claim C1). -/

/-- `resources/models.py` `Resource.request_entity_too_large`: gated on a
truthy bound, it returns `True` when
`self.max_request_entity_length > request.content_length` — the comparison
runs in the opposite direction to its own doc comment ("Check if the
request entity is too large to process"), to the sibling
`restlib2/resources.py` check, and to the repository's test suite. -/
def models_request_entity_too_large (max_len : Option Nat) (content_length : Nat) : Bool :=
  match max_len with
  | some m => decide (m ≠ 0) && decide (m > content_length)
  | none => false

/-- The request data the `models.py` prototype consults.  werkzeug parses
the `Accept` header into `request.accept_mimetypes`; that parsed list, the
boolean `request.accept_mimetypes['*/*'] == 0`, and `request.mimetype`
(the parsed lowercase `type/subtype` of the body) are carried as fields,
since the werkzeug parser is an external collaborator.  Conditional
headers are raw strings: the prototype compares them verbatim. -/
structure MRequest where
  method : String
  content_length : Nat := 0
  content_type : Option String := none
  mimetype : String := ""
  accept_present : Bool := false
  accept_mimetypes : List String := []
  accept_star_zero : Bool := false
  accept_language_present : Bool := false
  accept_charset_present : Bool := false
  accept_encoding_present : Bool := false
  content_encoding_present : Bool := false
  content_language_present : Bool := false
  if_match : Option String := none
  if_none_match : Option String := none
  if_modified_since : Option String := none
  if_unmodified_since : Option String := none
deriving Repr, DecidableEq

/-- A `resources/models.py` `Resource` as the class defines it: note the
prototype's defaults differ from `restlib2` — `require_conditional_request`
and `use_etags` default to `True` there. -/
structure MResource where
  offline : Unavailable := .off
  allowed_methods : List String := ["OPTIONS"]
  rate_limit_count : Nat := 0
  rate_limit_seconds : Nat := 60 * 60
  max_request_entity_length : Option Nat := none
  require_conditional_request : Bool := true
  use_etags : Bool := true
  use_last_modified : Bool := false
  supported_accept_types : List String := ["application/json"]
  supported_content_types : List String := ["application/json"]
  unauthorized : MRequest → Bool := fun _ => false
  forbidden : MRequest → Bool := fun _ => false
  too_many_requests : MRequest → Bool := fun _ => false
  not_found : MRequest → Bool := fun _ => false
  gone : MRequest → Bool := fun _ => false
  get_etag : MRequest → Option String := fun _ => none
  get_last_modified : MRequest → Nat := fun _ => 0

/-- `models.py` `Resource.service_unavailable`'s boolean outcome (the
`Retry-After` header it may also set is not consulted by any claim). -/
def MResource.service_unavailable (R : MResource) : Bool := R.offline.truthy

/-- `models.py` `Resource.method_not_allowed`'s boolean outcome. -/
def MResource.method_not_allowed (R : MResource) (req : MRequest) : Bool :=
  !R.allowed_methods.contains req.method

/-- `models.py` `Resource.content_type_supported`:
`request.mimetype in self.supported_content_types`. -/
def MResource.content_type_supported (R : MResource) (req : MRequest) : Bool :=
  R.supported_content_types.contains req.mimetype

/-- `models.py` `Resource.content_encoding_supported` (default). -/
def MResource.content_encoding_supported (_R : MResource) (_req : MRequest) : Bool := true

/-- `models.py` `Resource.content_language_supported` (default). -/
def MResource.content_language_supported (_R : MResource) (_req : MRequest) : Bool := true

/-- `models.py` `Resource.unsupported_media_type`: gated on a present and
truthy (non-blank) `Content-Type`. -/
def MResource.unsupported_media_type (R : MResource) (req : MRequest) : Bool :=
  match req.content_type with
  | some ct =>
    if ct ≠ "" then
      if !R.content_type_supported req then true
      else if req.content_encoding_present && !R.content_encoding_supported req then true
      else if req.content_language_present && !R.content_language_supported req then true
      else false
    else false
  | none => false

/-- `models.py` `Resource.accept_type_supported`: the first werkzeug-parsed
accept mimetype that is also configured wins; otherwise the for-else
returns `False` unless the header rates `*/*` at quality 0 (the
prototype's guard is inverted relative to `restlib2`), in which case the
first supported content type is the fallback. -/
def MResource.accept_type_supported (R : MResource) (req : MRequest) : Bool :=
  if req.accept_mimetypes.any (fun mt => R.supported_accept_types.contains mt) then true
  else if !req.accept_star_zero then false
  else true

/-- `models.py` `Resource.accept_charset_supported` (default). -/
def MResource.accept_charset_supported (_R : MResource) (_req : MRequest) : Bool := true

/-- `models.py` `Resource.accept_encoding_supported` (default). -/
def MResource.accept_encoding_supported (_R : MResource) (_req : MRequest) : Bool := true

/-- `models.py` `Resource.accept_language_supported` (default). -/
def MResource.accept_language_supported (_R : MResource) (_req : MRequest) : Bool := true

/-- `models.py` `Resource.not_acceptable`: each `Accept-*` check is gated
on its header being present. -/
def MResource.not_acceptable (R : MResource) (req : MRequest) : Bool :=
  if req.accept_present && !R.accept_type_supported req then true
  else if req.accept_language_present && !R.accept_language_supported req then true
  else if req.accept_charset_present && !R.accept_charset_supported req then true
  else if req.accept_encoding_present && !R.accept_encoding_supported req then true
  else false

/-- `models.py` `Resource.precondition_required`: the configuration gate
lives inside the method (the `response.data` hint it also writes is not
consulted by any claim). -/
def MResource.precondition_required (R : MResource) (req : MRequest) : Bool :=
  if R.require_conditional_request then
    if R.use_etags && req.if_match.isNone then true
    else if R.use_last_modified && req.if_unmodified_since.isNone then true
    else false
  else false

/-- `models.py` `Resource.precondition_failed` is declared without `self`;
the bound-method call shifts every argument one slot into `*args` and the
body is `pass`, so the check always returns a falsy `None`. -/
def MResource.precondition_failed (_R : MResource) (_req : MRequest) : Bool := false

/-- The `use_etags`/`use_last_modified` conditional block of `models.py`
`Resource.process` (lines 277-310): an `elif` chain, raw header strings
compared verbatim (`==`/`!=`) against the current tag or the
`http_date`-formatted last-modified instant; `some` is a terminal
status. -/
def models_conditional (R : MResource) (req : MRequest) : Option Nat :=
  if R.use_etags then
    let etag := R.get_etag req
    if req.method == "GET" || req.method == "HEAD" then
      match req.if_none_match with
      | some h => if (match etag with | some e => h == e | none => false) then some 304 else none
      | none => none
    else if req.method == "PUT" || req.method == "PATCH" then
      match req.if_match with
      | some h => if (match etag with | some e => h != e | none => true) then some 412 else none
      | none => none
    else none
  else if R.use_last_modified then
    let last_modified := http_date (R.get_last_modified req)
    if req.method == "GET" || req.method == "HEAD" then
      match req.if_modified_since with
      | some h => if h == last_modified then some 304 else none
      | none => none
    else if req.method == "PUT" || req.method == "PATCH" then
      match req.if_unmodified_since with
      | some h => if h != last_modified then some 412 else none
      | none => none
    else none
  else none

/-- Outcome of `models.py` `Resource.process`: a terminal status code, a
dispatch to the built-in OPTIONS handler, or fall-through to the method
handler. -/
inductive MProcessResult where
  | status (code : Nat)
  | options_dispatch
  | handler
deriving Repr, DecidableEq

/-- `models.py` `Resource.process` (lines 190-335): the prototype's check
chain.  Its order differs from `restlib2/resources.py`: the
precondition-required check (gated on PUT or DELETE, contradicting its own
comment naming PUT and PATCH) and the conditional
`use_etags`/`use_last_modified` block run *before* the not-found and gone
checks. -/
def models_process (R : MResource) (req : MRequest) : MProcessResult :=
  if R.service_unavailable then .status 503
  else if R.unauthorized req then .status 401
  else if R.forbidden req then .status 403
  else if (R.rate_limit_count ≠ 0 && R.rate_limit_seconds ≠ 0) && R.too_many_requests req then
    .status 429
  else if req.method == "OPTIONS" && R.allowed_methods.contains "OPTIONS" then
    .options_dispatch
  else if req.content_length ≠ 0 && R.unsupported_media_type req then .status 415
  else if req.content_length ≠ 0 &&
      models_request_entity_too_large R.max_request_entity_length req.content_length then
    .status 413
  else if R.method_not_allowed req then .status 405
  else if R.not_acceptable req then .status 406
  else if (req.method == "PUT" || req.method == "DELETE") && R.precondition_required req then
    .status 428
  else
    match models_conditional R req with
    | some code => .status code
    | none =>
      if R.not_found req then .status 404
      else if R.gone req then .status 410
      else if R.precondition_failed req then .status 412
      else .handler

/-! ## Theorems -/

/-- A passing stage hands over to the rest of the pipeline. -/
theorem runStages_cons_pass {s : Resource → Request → PipeResult}
    {rest : List (Resource → Request → PipeResult)} {R : Resource} {req : Request}
    (h : s R req = .pass) : runStages (s :: rest) R req = runStages rest R req := by
  simp [runStages, h]

/-- The two body-gated spec stages compose to the source's request-entity
block. -/
theorem spec_entity_stages (R : Resource) (req : Request)
    (rest : List (Resource → Request → PipeResult)) :
    runStages (spec_stage_unsupported_media_type :: spec_stage_entity_too_large :: rest) R req
      = match entity_checks R req with
        | .crash => .crash
        | .term r => .term r
        | .pass => runStages rest R req := by
  by_cases h6 : req.content_length = 0
  · simp [runStages, spec_stage_unsupported_media_type, spec_stage_entity_too_large,
      entity_checks, h6]
  · cases h7 : is_unsupported_media_type R req
    · simp [runStages, spec_stage_unsupported_media_type, entity_checks, h6, h7]
    · rename_i b
      cases b
      · cases h8 : max_entity_configured R && is_request_entity_too_large R req <;>
          simp [runStages, spec_stage_unsupported_media_type, spec_stage_entity_too_large,
            entity_checks, h6, h7, h8]
      · simp [runStages, spec_stage_unsupported_media_type, entity_checks, h6, h7]

/-- For every request, `restlib2/resources.py`'s `process_request`
evaluates its checks strictly in the order 503, 401, 403, 429 (only when a
rate limit is configured), OPTIONS dispatch, then — only with a non-zero
content length — 415 followed by 413, then 405, 406, 404, 410, 428, 412,
304, and finally falls through to handler dispatch; it coincides with the
first-failing-stage semantics of the spec's ordered state list, so the
first failing check produces its indicated status and no later check
decides the outcome. -/
theorem restlib2_pipeline_follows_spec_order (R : Resource) (req : Request) :
    process_request R req = runStages spec_pipeline R req := by
  simp only [spec_pipeline]
  cases h1 : is_service_unavailable R
  case true => simp [process_request, runStages, spec_stage_service_unavailable, h1]
  rw [runStages_cons_pass (show spec_stage_service_unavailable R req = .pass by
    simp [spec_stage_service_unavailable, h1])]
  cases h2 : R.is_unauthorized req
  case true => simp [process_request, runStages, spec_stage_unauthorized, h1, h2]
  rw [runStages_cons_pass (show spec_stage_unauthorized R req = .pass by
    simp [spec_stage_unauthorized, h2])]
  cases h3 : R.is_forbidden req
  case true => simp [process_request, runStages, spec_stage_forbidden, h1, h2, h3]
  rw [runStages_cons_pass (show spec_stage_forbidden R req = .pass by
    simp [spec_stage_forbidden, h3])]
  cases h4 : rate_limit_configured R && R.is_too_many_requests req
  case true => simp [process_request, runStages, spec_stage_too_many_requests, h1, h2, h3, h4]
  rw [runStages_cons_pass (show spec_stage_too_many_requests R req = .pass by
    simp [spec_stage_too_many_requests, h4])]
  cases h5 : req.method == "OPTIONS" && R.allowed_methods.contains "OPTIONS"
  case true =>
    simp only [process_request, runStages, spec_stage_options, h1, h2, h3, h4, h5,
      Bool.false_eq_true, if_false, if_true]
  rw [runStages_cons_pass (show spec_stage_options R req = .pass by
    simp only [spec_stage_options, h5, Bool.false_eq_true, if_false, if_true])]
  rw [spec_entity_stages]
  simp only [process_request, h1, h2, h3, h4, h5, Bool.false_eq_true, if_false, if_true]
  cases hE : entity_checks R req
  case crash => rfl
  case term => rfl
  cases h9 : is_method_not_allowed R req
  case true => simp [runStages, spec_stage_method_not_allowed, h9]
  rw [runStages_cons_pass (show spec_stage_method_not_allowed R req = .pass by
    simp [spec_stage_method_not_allowed, h9])]
  simp only [h9, Bool.false_eq_true, if_false, if_true]
  cases h10 : is_not_acceptable R req
  · simp [runStages, spec_stage_not_acceptable, h10]
  rename_i b10
  cases b10
  case true => simp [runStages, spec_stage_not_acceptable, h10]
  rw [runStages_cons_pass (show spec_stage_not_acceptable R req = .pass by
    simp [spec_stage_not_acceptable, h10])]
  simp only [h10]
  cases h11 : R.is_not_found req
  case true => simp [runStages, spec_stage_not_found, h11]
  rw [runStages_cons_pass (show spec_stage_not_found R req = .pass by
    simp [spec_stage_not_found, h11])]
  simp only [h11, Bool.false_eq_true, if_false, if_true]
  cases h12 : R.is_gone req
  case true => simp [runStages, spec_stage_gone, h12]
  rw [runStages_cons_pass (show spec_stage_gone R req = .pass by
    simp [spec_stage_gone, h12])]
  simp only [h12, Bool.false_eq_true, if_false, if_true]
  cases h13 : R.require_conditional_request && (req.method == "PUT" || req.method == "PATCH")
      && is_precondition_required R req
  case true =>
    simp only [runStages, spec_stage_precondition_required, h13,
      Bool.false_eq_true, if_false, if_true]
  rw [runStages_cons_pass (show spec_stage_precondition_required R req = .pass by
    simp only [spec_stage_precondition_required, h13, Bool.false_eq_true, if_false, if_true])]
  simp only [h13, Bool.false_eq_true, if_false, if_true]
  cases h14 : (req.method == "PUT" || req.method == "PATCH") && is_precondition_failed R req
  case true =>
    simp only [runStages, spec_stage_precondition_failed, h14,
      Bool.false_eq_true, if_false, if_true]
  rw [runStages_cons_pass (show spec_stage_precondition_failed R req = .pass by
    simp only [spec_stage_precondition_failed, h14, Bool.false_eq_true, if_false, if_true])]
  simp only [h14, Bool.false_eq_true, if_false, if_true]
  cases h15 : not_modified_check R req <;>
    simp [runStages, spec_stage_not_modified, h15]

/-- A `models.py` resource with a `put` handler whose entity does not
exist; the prototype's defaults leave `require_conditional_request` and
`use_etags` on. -/
def models_put_428_resource : MResource :=
  { allowed_methods := ["OPTIONS", "PUT"], not_found := fun _ => true }

/-- A bare `PUT /` (no body, no conditional headers). -/
def models_put_428_req : MRequest := { method := "PUT" }

/-- A `models.py` ETag resource (current tag `abc123`) whose entity does
not exist. -/
def models_get_304_resource : MResource :=
  { allowed_methods := ["OPTIONS", "GET"], not_found := fun _ => true,
    get_etag := fun _ => some "abc123" }

/-- A `GET /` with `If-None-Match` equal to the current tag. -/
def models_get_304_req : MRequest := { method := "GET", if_none_match := some "abc123" }

/-- C1: the `restlib2/resources.py` pipeline satisfies the claim — it is
extensionally the first-failing-stage run of the spec's ordered state
list, so the first failing check yields its indicated status and no later
check decides the outcome — but the `resources/models.py` `Resource.process`
the claim also cites violates the claimed order: it evaluates the
precondition-required check and the conditional ETag/Last-Modified block
before not-found and gone, so at the two inputs below, whose not-found
hook holds, it answers 428 (a bare `PUT` under its default conditional
policy) and 304 (a matching `If-None-Match` `GET`) where the claimed
order reaches 404 first. -/
theorem claim_C1_pipeline_order :
    (∀ (R : Resource) (req : Request),
      process_request R req = runStages spec_pipeline R req) ∧
    (models_put_428_resource.not_found models_put_428_req = true ∧
      models_process models_put_428_resource models_put_428_req = .status 428) ∧
    (models_get_304_resource.not_found models_get_304_req = true ∧
      models_process models_get_304_resource models_get_304_req = .status 304) :=
  ⟨restlib2_pipeline_follows_spec_order, ⟨rfl, rfl⟩, ⟨rfl, rfl⟩⟩

/-! ### Concrete fixtures -/

/-- A resource with a configured rate limit whose limiter reports the
request over quota (the repository's rate-limit test resource at the point
where the window is exhausted). -/
def rate_limited_options : Resource :=
  { rate_limit_count := 10, rate_limit_seconds := 2,
    is_too_many_requests := fun _ => true }

/-- A bare `OPTIONS /` request. -/
def options_req : Request := { method := "OPTIONS" }

/-- The built-in OPTIONS handler always answers 200. -/
theorem options_response_status (R : Resource) : (options_response R).status = 200 := by
  unfold options_response uncacheable Response.set_header
  cases R.allowed_methods.contains "PATCH" <;> simp

/-! ### C2 -/

/-- C2 counterexample: the claim fails on two counts.  (1) A resource
declaring `allowed_methods = ['GET']` (with a `get` handler) builds
successfully but `OPTIONS` is not a member of its allowed methods — the
metaclass never adds `OPTIONS` to an explicit list.  (2) With a rate limit
configured and the limiter over quota, an `OPTIONS` request yields 429 even
though service-unavailable, unauthorized and forbidden all pass — so those
three are not the only checks preceding OPTIONS dispatch. -/
theorem counterexample_C2 :
    (build_allowed_methods (some ["GET"]) ["GET"] = Except.ok ["GET"] ∧
      "OPTIONS" ∉ (["GET"] : List String)) ∧
    (is_service_unavailable rate_limited_options = false ∧
      rate_limited_options.is_unauthorized options_req = false ∧
      rate_limited_options.is_forbidden options_req = false ∧
      (resource_call rate_limited_options options_req).map Response.status = some 429) := by
  exact ⟨⟨rfl, by decide⟩, rfl, rfl, rfl, rfl⟩

/-- C2 (amended): `OPTIONS` is a member of `allowed_methods` whenever the
resource does not declare an explicit `allowed_methods` list (the built-in
handler makes it usable); and an allowed `OPTIONS` request yields the
built-in handler's 200 response unless the service-unavailable,
unauthorized, forbidden, or too-many-requests checks (the checks preceding
OPTIONS dispatch) fail first. -/
theorem claim_C2_options_allowed :
    (∀ (caps r : List String), build_allowed_methods none caps = Except.ok r →
      "OPTIONS" ∈ r) ∧
    (∀ (R : Resource) (req : Request),
      req.method = "OPTIONS" → "OPTIONS" ∈ R.allowed_methods →
      is_service_unavailable R = false →
      R.is_unauthorized req = false → R.is_forbidden req = false →
      (rate_limit_configured R && R.is_too_many_requests req) = false →
      (resource_call R req).map Response.status = some 200) := by
  constructor
  · intro caps r hr
    simp only [build_allowed_methods, Except.ok.injEq] at hr
    subst hr
    have hmem : "OPTIONS" ∈ http_methods.filter (usable caps) := by
      rw [List.mem_filter]
      exact ⟨by decide, by simp [usable]⟩
    unfold drop_head_without_get
    split
    · exact (List.mem_erase_of_ne (by decide)).mpr hmem
    · exact hmem
  · intro R req hm hopt h1 h2 h3 h4
    have hopt2 : (req.method == "OPTIONS" && R.allowed_methods.contains "OPTIONS") = true := by
      simp [hm, hopt]
    unfold resource_call process_request
    simp only [h1, h2, h3, h4, hopt2, Bool.false_eq_true, if_false, if_true]
    simp only [process_response, hm]
    simp [options_response_status]

/-- Witness for C2: the implicit build over a lone `get` capability allows
`OPTIONS`, and the default resource answers `OPTIONS` with 200. -/
theorem claim_C2_options_allowed_witness :
    ("OPTIONS" ∈ (["GET", "HEAD", "OPTIONS"] : List String)) ∧
    ((resource_call {} options_req).map Response.status = some 200) :=
  ⟨claim_C2_options_allowed.1 ["GET"] ["GET", "HEAD", "OPTIONS"] rfl,
   claim_C2_options_allowed.2 {} options_req rfl (by decide) rfl rfl rfl rfl⟩

/-! ### C3 -/

/-- For an implicitly computed `allowed_methods`, `HEAD` is present exactly
when `GET` is: the base class always contributes a usable `head` handler,
and the post-processing removes it again when `GET` is absent. -/
theorem implicit_allowed_head_iff_get (caps r : List String)
    (hr : build_allowed_methods none caps = Except.ok r) :
    ("HEAD" ∈ r ↔ "GET" ∈ r) := by
  simp only [build_allowed_methods, Except.ok.injEq] at hr
  subst hr
  have hnd : (http_methods.filter (usable caps)).Nodup :=
    List.Nodup.filter _ (by decide)
  have hhead : "HEAD" ∈ http_methods.filter (usable caps) := by
    rw [List.mem_filter]; exact ⟨by decide, by simp [usable]⟩
  unfold drop_head_without_get
  split
  · rename_i hcond
    constructor
    · intro hh
      exact absurd rfl ((hnd.mem_erase_iff).mp hh).1
    · intro hg
      have hc : (http_methods.filter (usable caps)).contains "GET" = true :=
        List.elem_iff.mpr (List.mem_of_mem_erase hg)
      have h1 := (Bool.and_eq_true _ _).mp hcond |>.1
      rw [hc] at h1
      simp at h1
  · rename_i hcond
    have hch : (http_methods.filter (usable caps)).contains "HEAD" = true :=
      List.elem_iff.mpr hhead
    have hcg : (http_methods.filter (usable caps)).contains "GET" = true := by
      cases hcg : (http_methods.filter (usable caps)).contains "GET"
      · exact absurd (by rw [Bool.and_eq_true]; exact ⟨by rw [hcg]; rfl, hch⟩) hcond
      · rfl
    exact iff_of_true hhead (List.elem_iff.mp hcg)

/-- C3 counterexample: the biconditional fails — an explicit
`allowed_methods = ['GET']` builds a descriptor containing `GET` but not
`HEAD`; moreover even the one-sided invariant fails on a degenerate
duplicated explicit list: `['HEAD', 'HEAD']` builds to `('HEAD',)`, which
contains `HEAD` without `GET` because `list.remove` only drops the first
occurrence. -/
theorem counterexample_C3 :
    (build_allowed_methods (some ["GET"]) ["GET"] = Except.ok ["GET"] ∧
      "GET" ∈ (["GET"] : List String) ∧ "HEAD" ∉ (["GET"] : List String)) ∧
    (build_allowed_methods (some ["HEAD", "HEAD"]) [] = Except.ok ["HEAD"] ∧
      "HEAD" ∈ (["HEAD"] : List String) ∧ "GET" ∉ (["HEAD"] : List String)) :=
  ⟨⟨rfl, by decide, by decide⟩, ⟨rfl, by decide, by decide⟩⟩

/-- C3 (amended): for a descriptor built without an explicit
`allowed_methods` list, `HEAD` is in `allowed_methods` iff `GET` is (in
particular an absent `GET` handler removes `HEAD`); for a duplicate-free
explicit list, the built `allowed_methods` never contains `HEAD` without
`GET` (an explicit list may, however, contain `GET` without `HEAD`, and a
duplicated `HEAD` entry survives the removal). -/
theorem claim_C3_head_requires_get :
    (∀ (caps r : List String), build_allowed_methods none caps = Except.ok r →
      ("HEAD" ∈ r ↔ "GET" ∈ r)) ∧
    (∀ (ms caps r : List String), ms.Nodup →
      build_allowed_methods (some ms) caps = Except.ok r →
      "HEAD" ∈ r → "GET" ∈ r) := by
  constructor
  · exact implicit_allowed_head_iff_get
  · intro ms caps r hnd hr hh
    by_cases hempty : ms.isEmpty
    · exact (implicit_allowed_head_iff_get caps r
        (by simpa [build_allowed_methods, hempty] using hr)).mp hh
    · simp only [build_allowed_methods, hempty, Bool.false_eq_true, if_false] at hr
      cases hf : ms.find? (fun m => !usable caps m) <;> rw [hf] at hr
      · simp only [Except.ok.injEq] at hr
        subst hr
        unfold drop_head_without_get at hh ⊢
        split at hh
        · rename_i hcond
          exact absurd rfl ((hnd.mem_erase_iff).mp hh).1
        · rename_i hcond
          rw [if_neg hcond]
          have hch : ms.contains "HEAD" = true := List.elem_iff.mpr hh
          have hcg : ms.contains "GET" = true := by
            cases hcg : ms.contains "GET"
            · exact absurd (by rw [Bool.and_eq_true]; exact ⟨by rw [hcg]; rfl, hch⟩) hcond
            · rfl
          exact List.elem_iff.mp hcg
      · exact absurd hr (by simp)

/-- Witness for C3: the default capability set builds to `('OPTIONS',)`
where the biconditional is vacuously balanced, and the duplicate-free
explicit list `['GET', 'HEAD', 'OPTIONS']` keeps `GET` alongside `HEAD`. -/
theorem claim_C3_head_requires_get_witness :
    (("HEAD" ∈ (["OPTIONS"] : List String)) ↔ "GET" ∈ (["OPTIONS"] : List String)) ∧
    ("GET" ∈ (["GET", "HEAD", "OPTIONS"] : List String)) :=
  ⟨claim_C3_head_requires_get.1 [] ["OPTIONS"] rfl,
   claim_C3_head_requires_get.2 ["GET", "HEAD", "OPTIONS"] ["GET"]
     ["GET", "HEAD", "OPTIONS"] (by decide) rfl (by decide)⟩

/-! ### C9 -/

/-- C9: with an explicit `allowed_methods` list, the build (class
definition) succeeds iff every listed method has a usable handler
capability — a missing handler is a `ValueError` raised at build time,
before any request exists. -/
theorem claim_C9_explicit_validation (ms caps : List String) (hne : ms ≠ []) :
    (∃ r, build_allowed_methods (some ms) caps = Except.ok r) ↔
      (∀ m ∈ ms, usable caps m = true) := by
  simp only [build_allowed_methods]
  rw [if_neg (by simpa using hne)]
  cases hf : ms.find? (fun m => !usable caps m)
  · simp only [List.find?_eq_none, Bool.not_eq_true] at hf
    constructor
    · intro _ m hm
      have := hf m hm
      simpa using this
    · intro _
      exact ⟨_, rfl⟩
  · rename_i m
    constructor
    · intro ⟨r, hr⟩
      exact absurd hr (by simp)
    · intro hall
      have hmem := List.mem_of_find?_eq_some hf
      have hp := List.find?_some hf
      rw [hall m hmem] at hp
      simp at hp

/-- Witness for C9: `['GET']` with a `get` capability builds. -/
theorem claim_C9_explicit_validation_witness :
    ∃ r, build_allowed_methods (some ["GET"]) ["GET"] = Except.ok r :=
  (claim_C9_explicit_validation ["GET"] ["GET"] (by decide)).mpr (by decide)

/-! ### C4 -/

/-- Spec-side reading of "the header explicitly rates `*/*` at quality 0":
some comma-separated entry of the header is literally the any-type range
with quality 0. -/
def header_rates_star_star_zero (header : String) : Bool :=
  match (splitStr ',' header).mapM parse_media_range with
  | some rs => rs.any (fun r => r.mtype == "*" && r.msub == "*" && r.q == 0)
  | none => false

/-- A read-only JSON resource with a `get` handler. -/
def get_json_resource : Resource :=
  { allowed_methods := ["HEAD", "OPTIONS", "GET"],
    handle := fun _ => .content (some "(body)") }

/-- C4 counterexample: `Accept: text/html;q=0` against supported
`["application/json"]` matches nothing and does not rate `*/*` at quality
0, so clause (2) of the claim promises the fallback to the first supported
type; but the code computes `mimeparse.quality('*/*', header) = 0` (the
only matching range, `text/html`, carries `q=0`) and refuses — negotiation
fails where the claim requires it to succeed. -/
theorem counterexample_C4 :
    header_rates_star_star_zero "text/html;q=0" = false ∧
    best_match ["application/json"] "text/html;q=0" = some "" ∧
    accept_type_supported {} { method := "GET", accept := some "text/html;q=0" }
      = some (false, none) := ⟨rfl, rfl, rfl⟩

/-- C4 (amended): (1) with no `Accept` header the first supported accept
type is selected (none fixed when the supported list is empty); (2) when
the header matches no supported type and the computed `mimeparse` quality
of `*/*` against the header is non-zero, the first supported type is the
fallback; (3) when nothing matches and that computed quality is 0 — in
particular when the header explicitly rates `*/*` at quality 0 — the
negotiation fails (406); concretely, with supported `["application/json"]`
the header `application/json,application/xml;q=0.9,*/*;q=0.8` succeeds
with `application/json` and the header `text/html;q=1,*/*;q=0` drives the
pipeline to 406. -/
theorem claim_C4_accept_negotiation :
    (∀ (R : Resource) (req : Request), req.accept = none →
      accept_type_supported R req = some (true, R.supported_accept_types.head?)) ∧
    (∀ (R : Resource) (req : Request) (h : String) (q : Nat),
      req.accept = some h →
      best_match R.supported_accept_types.reverse h = some "" →
      quality "*/*" h = some q → q ≠ 0 →
      accept_type_supported R req = some (true, R.supported_accept_types.head?)) ∧
    (∀ (R : Resource) (req : Request) (h : String),
      req.accept = some h →
      best_match R.supported_accept_types.reverse h = some "" →
      quality "*/*" h = some 0 →
      accept_type_supported R req = some (false, none)) ∧
    (accept_type_supported {}
        { method := "GET",
          accept := some "application/json,application/xml;q=0.9,*/*;q=0.8" }
      = some (true, some "application/json")) ∧
    ((resource_call get_json_resource
        { method := "GET", accept := some "text/html;q=1,*/*;q=0" }).map
      Response.status = some 406) := by
  refine ⟨?_, ?_, ?_, rfl, rfl⟩
  · intro R req ha
    simp [accept_type_supported, ha]
  · intro R req h q ha hbm hq hq0
    simp [accept_type_supported, ha, hbm, hq, hq0]
  · intro R req h ha hbm hq
    simp [accept_type_supported, ha, hbm, hq]

/-- Witness for C4: `Accept: text/html` (computed `*/*` quality 1) falls
back to `application/json` on the default resource. -/
theorem claim_C4_accept_negotiation_witness :
    accept_type_supported {} { method := "GET", accept := some "text/html" }
      = some (true, some "application/json") :=
  claim_C4_accept_negotiation.2.1 {} { method := "GET", accept := some "text/html" }
    "text/html" 1000 rfl rfl rfl (by decide)

/-! ### C5 -/

/-- The repository's entity-bound test resource: `max = 20`, a `post`
handler. -/
def tiny_resource : Resource :=
  { allowed_methods := ["OPTIONS", "POST"], max_request_entity_length := some 20 }

/-- A JSON `POST /` with the given content length. -/
def post_req (n : Nat) : Request :=
  { method := "POST", content_length := n, content_type := some "application/json" }

/-- C5: with a configured `max_request_entity_length`, the
`restlib2/resources.py` entity-too-large check fails exactly when the
request's content length strictly exceeds the bound — 21 bytes against a
bound of 20 drive the pipeline to 413, 20 bytes pass through to the
handler — while the `resources/models.py` variant of the check (also cited
by the claim) reverses the comparison and flags a 10-byte body. -/
theorem claim_C5_entity_too_large :
    (∀ (R : Resource) (req : Request) (m : Nat),
      R.max_request_entity_length = some m →
      (is_request_entity_too_large R req = true ↔ req.content_length > m)) ∧
    ((resource_call tiny_resource (post_req 21)).map Response.status = some 413) ∧
    ((resource_call tiny_resource (post_req 20)).map Response.status = some 204) ∧
    (models_request_entity_too_large (some 20) 10 = true) := by
  refine ⟨?_, rfl, rfl, rfl⟩
  intro R req m hm
  simp [is_request_entity_too_large, hm]

/-- Witness for C5: the general equivalence evaluated at the test
configuration (bound 20, length 21). -/
theorem claim_C5_entity_too_large_witness :
    is_request_entity_too_large tiny_resource (post_req 21) = true :=
  (claim_C5_entity_too_large.1 tiny_resource (post_req 21) 20 rfl).mpr (by decide)

/-! ### C6 -/

/-- A last-modified-based writable resource whose entity was last modified
at instant 1000. -/
def lm_put_resource : Resource :=
  { allowed_methods := ["OPTIONS", "PUT"], use_last_modified := true,
    get_last_modified := fun _ => 1000 }

/-- A `PUT` whose `If-Unmodified-Since` instant (1020) lies *after* the
resource's current last-modified instant (1000). -/
def future_ius_req : Request := { method := "PUT", if_unmodified_since := some 1020 }

/-- C6 counterexample: the resource was last modified at 1000, the header
says 1020 — the current modification is *not* strictly after the header's
instant, so the claim requires the check to pass; but the source compares
with `!=` and the pipeline answers 412. -/
theorem counterexample_C6 :
    lm_put_resource.get_last_modified future_ius_req = 1000 ∧
    future_ius_req.if_unmodified_since = some 1020 ∧
    ¬ (1000 : Nat) > 1020 ∧
    is_precondition_failed lm_put_resource future_ius_req = true ∧
    (resource_call lm_put_resource future_ius_req).map Response.status = some 412 :=
  ⟨rfl, rfl, by decide, rfl, rfl⟩

/-- C6 (amended): for a request with `use_last_modified` enabled (and ETag
validation disabled) carrying `If-Unmodified-Since`, the
precondition-failed check fires exactly when the header's instant
*differs* from the resource's current last-modified instant (at the
one-second HTTP-date resolution of the embedding) — not only when the
current instant is strictly newer. -/
theorem claim_C6_if_unmodified_since (R : Resource) (req : Request) (n : Nat)
    (he : R.use_etags = false) (hl : R.use_last_modified = true)
    (hh : req.if_unmodified_since = some n) :
    (is_precondition_failed R req = true ↔ n ≠ R.get_last_modified req) := by
  simp [is_precondition_failed, he, hl, hh]

/-- Witness for C6: at the counterexample instants the amended condition
`1020 ≠ 1000` indeed forces the check to fire. -/
theorem claim_C6_if_unmodified_since_witness :
    is_precondition_failed lm_put_resource future_ius_req = true :=
  (claim_C6_if_unmodified_since lm_put_resource future_ius_req 1020
    rfl rfl rfl).mpr (by decide)

/-! ### C7 and C8: the conditional-request section of the pipeline -/

/-- Under passing early checks — available, authorized, permitted, within
quota, not an OPTIONS dispatch, no body, method allowed, acceptable, found,
not gone — the pipeline reduces to its conditional-request section. -/
theorem process_request_conditional_section (R : Resource) (req : Request)
    (h1 : is_service_unavailable R = false) (h2 : R.is_unauthorized req = false)
    (h3 : R.is_forbidden req = false)
    (h4 : (rate_limit_configured R && R.is_too_many_requests req) = false)
    (hopt : (req.method == "OPTIONS" && R.allowed_methods.contains "OPTIONS") = false)
    (hcl : req.content_length = 0)
    (hmna : is_method_not_allowed R req = false)
    (hna : is_not_acceptable R req = some false)
    (hnf : R.is_not_found req = false) (hg : R.is_gone req = false) :
    process_request R req =
      (if R.require_conditional_request && (req.method == "PUT" || req.method == "PATCH")
          && is_precondition_required R req then .term (uncacheable 428)
       else if (req.method == "PUT" || req.method == "PATCH")
          && is_precondition_failed R req then .term (uncacheable 412)
       else match not_modified_check R req with
            | some r => .term r
            | none => .pass) := by
  unfold process_request
  rw [show entity_checks R req = .pass by simp [entity_checks, hcl]]
  simp only [h1, h2, h3, h4, hopt, hmna, hna, hnf, hg,
    Bool.false_eq_true, if_false, if_true]

/-- C7: on a resource requiring conditional requests with ETag validation
(and passing every earlier check), a `PUT` without `If-Match` terminates
with the non-cacheable 428 — whose `Cache-Control` carries `no-cache` —
while a `PUT` whose `If-Match` tag equals the current entity tag passes
the precondition checks and reaches the method handler; an `If-Match` tag
differing from the current one terminates with the non-cacheable 412,
also carrying `no-cache`. -/
theorem claim_C7_conditional_put (R : Resource) (req : Request)
    (h1 : is_service_unavailable R = false)
    (h2 : R.is_unauthorized req = false)
    (h3 : R.is_forbidden req = false)
    (h4 : (rate_limit_configured R && R.is_too_many_requests req) = false)
    (hm : req.method = "PUT")
    (hcl : req.content_length = 0)
    (hal : R.allowed_methods.contains "PUT" = true)
    (hac : req.accept = none)
    (hnf : R.is_not_found req = false)
    (hg : R.is_gone req = false)
    (hrc : R.require_conditional_request = true)
    (he : R.use_etags = true)
    (hlm : R.use_last_modified = false) :
    (req.if_match = none →
      resource_call R req = some (uncacheable 428) ∧
      (uncacheable 428).cache_control.contains "no-cache" = true) ∧
    (∀ h t, req.if_match = some h → (parse_etags h).headD "" = t →
      R.get_etag req t = some t →
      process_request R req = .pass ∧
      resource_call R req = some (process_response R req (R.handle req))) ∧
    (∀ h t t2, req.if_match = some h → (parse_etags h).headD "" = t →
      R.get_etag req t = some t2 → t ≠ t2 →
      resource_call R req = some (uncacheable 412) ∧
      (uncacheable 412).cache_control.contains "no-cache" = true) := by
  have hopt : (req.method == "OPTIONS" && R.allowed_methods.contains "OPTIONS") = false := by
    simp [hm]
  have hmna : is_method_not_allowed R req = false := by
    unfold is_method_not_allowed
    rw [hm, hal]
    decide
  have hna : is_not_acceptable R req = some false := by
    simp [is_not_acceptable, accept_type_supported, hac, accept_language_supported,
      accept_charset_supported, accept_encoding_supported]
  have hsec := process_request_conditional_section R req h1 h2 h3 h4 hopt hcl hmna hna hnf hg
  refine ⟨?_, ?_, ?_⟩
  · intro hifm
    have hipr : is_precondition_required R req = true := by
      simp [is_precondition_required, he, hifm]
    have hcond : (R.require_conditional_request &&
        (req.method == "PUT" || req.method == "PATCH")
        && is_precondition_required R req) = true := by
      simp [hrc, hm, hipr]
    constructor
    · unfold resource_call
      rw [hsec, if_pos hcond]
      simp [process_response, hm]
    · decide
  · intro h t hifm hparse hget
    have hipr : is_precondition_required R req = false := by
      simp [is_precondition_required, he, hlm, hifm]
    have hipf : is_precondition_failed R req = false := by
      simp only [is_precondition_failed, he, hlm, hifm, hparse, hget]
      simp
    have hnm : not_modified_check R req = none := by
      simp [not_modified_check, hm]
    have hpr : process_request R req = .pass := by
      rw [hsec]
      simp [hipr, hipf, hnm]
    constructor
    · exact hpr
    · unfold resource_call
      rw [hpr]
  · intro h t t2 hifm hparse hget hne
    have hipr : is_precondition_required R req = false := by
      simp [is_precondition_required, he, hlm, hifm]
    have hipf : is_precondition_failed R req = true := by
      simp only [is_precondition_failed, he, hlm, hifm, hparse, hget]
      simp [hne]
    constructor
    · unfold resource_call
      rw [hsec]
      simp only [hipr, hipf, hm, Bool.and_false, Bool.false_eq_true, if_false]
      simp [process_response, hm, hrc]
    · decide

/-- The conditional test resource of the repository: ETag-validated,
conditional requests required, current tag `abc123`. -/
def precondition_resource : Resource :=
  { allowed_methods := ["OPTIONS", "PUT", "PATCH", "DELETE"],
    use_etags := true, require_conditional_request := true,
    get_etag := fun _ _ => some "abc123" }

/-- Witness for C7: on the repository's conditional test resource, a bare
`PUT` is answered 428 with `no-cache`, and a `PUT` with the matching
`If-Match: "abc123"` reaches the handler. -/
theorem claim_C7_conditional_put_witness :
    (resource_call precondition_resource { method := "PUT" } = some (uncacheable 428) ∧
      (uncacheable 428).cache_control.contains "no-cache" = true) ∧
    process_request precondition_resource
      { method := "PUT", if_match := some "\"abc123\"" } = .pass :=
  ⟨(claim_C7_conditional_put precondition_resource { method := "PUT" }
      rfl rfl rfl rfl rfl rfl rfl rfl rfl rfl rfl rfl rfl).1 rfl,
   ((claim_C7_conditional_put precondition_resource
      { method := "PUT", if_match := some "\"abc123\"" }
      rfl rfl rfl rfl rfl rfl rfl rfl rfl rfl rfl rfl rfl).2.1 "\"abc123\"" "abc123"
      rfl rfl rfl).1⟩

/-! ### Response post-processing preservation lemmas -/

/-- `response_cache_control` only touches headers and cache directives. -/
theorem response_cache_control_status (R : Resource) (resp : Response) :
    (response_cache_control R resp).status = resp.status := by
  unfold response_cache_control patch_cache_control Response.set_header
  cases R.cache_max_age <;> simp <;> split <;> simp

/-- `response_cache_control` leaves the body alone. -/
theorem response_cache_control_content (R : Resource) (resp : Response) :
    (response_cache_control R resp).content = resp.content := by
  unfold response_cache_control patch_cache_control Response.set_header
  cases R.cache_max_age <;> simp <;> split <;> simp

/-- `set_etag` leaves the status alone. -/
theorem set_etag_status (resp : Response) : (set_etag resp).status = resp.status := by
  unfold set_etag Response.set_header
  split <;> rfl

/-- `set_etag` leaves the body alone. -/
theorem set_etag_content (resp : Response) : (set_etag resp).content = resp.content := by
  unfold set_etag Response.set_header
  split <;> rfl

/-- `set_last_modified` leaves the status alone. -/
theorem set_last_modified_status (R : Resource) (req : Request) (resp : Response) :
    (set_last_modified R req resp).status = resp.status := by
  unfold set_last_modified Response.set_header
  split <;> rfl

/-- `set_last_modified` leaves the body alone. -/
theorem set_last_modified_content (R : Resource) (req : Request) (resp : Response) :
    (set_last_modified R req resp).content = resp.content := by
  unfold set_last_modified Response.set_header
  split <;> rfl

/-- Post-processing a ready response of a `GET` keeps its status. -/
theorem process_response_get_status (R : Resource) (req : Request) (r : Response)
    (hm : req.method = "GET") :
    (process_response R req (.hres r)).status = r.status := by
  unfold process_response
  simp only [hm]
  simp only [show (("GET" : String) == "HEAD") = false from rfl,
    show (("GET" : String) == "GET") = true from rfl, Bool.false_eq_true, if_false,
    Bool.true_or, if_true]
  split <;> split <;>
    simp [set_last_modified_status, set_etag_status, response_cache_control_status]

/-- Post-processing raw string content of a `GET` yields a 200 carrying
that content as its body. -/
theorem process_response_get_body (R : Resource) (req : Request) (body : String)
    (hm : req.method = "GET") :
    (process_response R req (.content (some body))).status = 200 ∧
    (process_response R req (.content (some body))).content = body := by
  unfold process_response write
  simp only [hm]
  simp only [show ¬ ("GET" : String) = "HEAD" from by decide,
    show (("GET" : String) == "HEAD") = false from rfl,
    show (("GET" : String) == "GET") = true from rfl, Bool.false_eq_true, if_false,
    Bool.true_or, if_true, ite_true, ite_false]
  constructor <;> (split <;> split <;>
    simp [set_last_modified_status, set_etag_status, response_cache_control_status,
      set_last_modified_content, set_etag_content, response_cache_control_content])

/-! ### C8 -/

/-- Post-processing a `HEAD` response keeps the status and blanks the
body. -/
theorem process_response_head (R : Resource) (req : Request) (r : Response)
    (hm : req.method = "HEAD") :
    (process_response R req (.hres r)).status = r.status ∧
    (process_response R req (.hres r)).content = "" := by
  unfold process_response
  simp only [hm]
  simp only [show (("HEAD" : String) == "HEAD") = true from rfl,
    show (("HEAD" : String) == "GET") = false from rfl, Bool.false_eq_true, if_false,
    Bool.false_or, if_true, ite_true]
  constructor <;> (split <;> split <;>
    simp [set_last_modified_status, set_etag_status, response_cache_control_status,
      set_last_modified_content, set_etag_content, response_cache_control_content])

/-- Post-processing raw handler content of a `HEAD` skips `write`
entirely: a fresh 200 response with a blank body. -/
theorem process_response_head_raw (R : Resource) (req : Request) (c : Option String)
    (hm : req.method = "HEAD") :
    (process_response R req (.content c)).status = 200 ∧
    (process_response R req (.content c)).content = "" := by
  unfold process_response
  simp only [hm]
  simp only [show (¬ ("HEAD" : String) ≠ "HEAD") from by decide,
    show (("HEAD" : String) == "HEAD") = true from rfl,
    show (("HEAD" : String) == "GET") = false from rfl, Bool.false_eq_true, if_false,
    Bool.false_or, if_true, ite_true, ite_false]
  constructor <;> (split <;> split <;>
    simp [set_last_modified_status, set_etag_status, response_cache_control_status,
      set_last_modified_content, set_etag_content, response_cache_control_content])

/-- The ETag test resource: current tag `abc123`, a `get` handler returning
a fresh body. -/
def etag_get_resource : Resource :=
  { allowed_methods := ["HEAD", "OPTIONS", "GET", "PUT"], use_etags := true,
    get_etag := fun _ _ => some "abc123",
    handle := fun _ => .content (some "(body)") }

/-- C8 counterexample: the claim quantifies over every GET *or HEAD*
request and promises, for a differing `If-None-Match` tag, 200 "with a
fresh body"; but for `HEAD` the handler's fresh body is discarded —
`process_response` never writes raw content for `HEAD` and blanks the
body — so a `HEAD` with a mismatched tag is answered 200 with an empty
body even though the handler produced one (exactly what the repository's
own `HEAD` test asserts). -/
theorem counterexample_C8 :
    etag_get_resource.handle { method := "HEAD", if_none_match := some "\"def456\"" }
      = .content (some "(body)") ∧
    (resource_call etag_get_resource
        { method := "HEAD", if_none_match := some "\"def456\"" }).map
      Response.status = some 200 ∧
    (resource_call etag_get_resource
        { method := "HEAD", if_none_match := some "\"def456\"" }).map
      Response.content = some "" := ⟨rfl, rfl, rfl⟩

/-- C8 (amended): for a `GET` or `HEAD` request (all earlier checks
passing) on an ETag-validated resource: an `If-None-Match` tag equal to
the current tag (exact equality of the single unquoted token) terminates
with 304; a differing tag (with last-modified validation off) reaches the
handler and yields 200 — carrying the handler's fresh body for `GET`,
while a `HEAD` response's body is discarded and returned blank; and in the
else-branch — no ETag 304 — with `use_last_modified` enabled, an
`If-Modified-Since` instant at least the current last-modified instant
terminates with 304. -/
theorem claim_C8_conditional_get (R : Resource) (req : Request)
    (h1 : is_service_unavailable R = false)
    (h2 : R.is_unauthorized req = false)
    (h3 : R.is_forbidden req = false)
    (h4 : (rate_limit_configured R && R.is_too_many_requests req) = false)
    (hm : req.method = "GET" ∨ req.method = "HEAD")
    (hcl : req.content_length = 0)
    (hal : R.allowed_methods.contains req.method = true)
    (hac : req.accept = none)
    (hnf : R.is_not_found req = false)
    (hg : R.is_gone req = false)
    (he : R.use_etags = true) :
    (∀ h t, req.if_none_match = some h → (parse_etags h).headD "" = t →
      R.get_etag req t = some t →
      ∃ resp, resource_call R req = some resp ∧ resp.status = 304) ∧
    (∀ h t t2 body, req.if_none_match = some h → (parse_etags h).headD "" = t →
      R.get_etag req t = some t2 → t ≠ t2 →
      R.use_last_modified = false →
      R.handle req = .content (some body) →
      ∃ resp, resource_call R req = some resp ∧ resp.status = 200 ∧
        resp.content = (if req.method = "GET" then body else "")) ∧
    (∀ n, etag_not_modified R req = false →
      R.use_last_modified = true → req.if_modified_since = some n →
      n ≥ R.get_last_modified req →
      ∃ resp, resource_call R req = some resp ∧ resp.status = 304) := by
  have hopt : (req.method == "OPTIONS" && R.allowed_methods.contains "OPTIONS") = false := by
    rcases hm with hm | hm <;> simp [hm]
  have hmna : is_method_not_allowed R req = false := by
    unfold is_method_not_allowed
    rw [hal]
    decide
  have hna : is_not_acceptable R req = some false := by
    simp [is_not_acceptable, accept_type_supported, hac, accept_language_supported,
      accept_charset_supported, accept_encoding_supported]
  have hsec := process_request_conditional_section R req h1 h2 h3 h4 hopt hcl hmna hna hnf hg
  have hput : (req.method == "PUT" || req.method == "PATCH") = false := by
    rcases hm with hm | hm <;> simp [hm]
  have hgh : (req.method == "GET" || req.method == "HEAD") = true := by
    rcases hm with hm | hm <;> simp [hm]
  have hstat : ∀ r : Response, (process_response R req (.hres r)).status = r.status := by
    rcases hm with hm | hm
    · exact fun r => process_response_get_status R req r hm
    · exact fun r => (process_response_head R req r hm).1
  refine ⟨?_, ?_, ?_⟩
  · intro h t hinm hparse hget
    have henm : etag_not_modified R req = true := by
      simp only [etag_not_modified, he, hinm, hparse, hget]
      simp
    have hnm : not_modified_check R req = some { status := 304 } := by
      simp [not_modified_check, hgh, henm]
    refine ⟨process_response R req (.hres { status := 304 }), ?_, hstat _⟩
    unfold resource_call
    rw [hsec]
    simp [hput, hnm]
  · intro h t t2 body hinm hparse hget hne hlm hhandle
    have henm : etag_not_modified R req = false := by
      simp only [etag_not_modified, he, hinm, hparse, hget]
      simp [hne]
    have hnm : not_modified_check R req = none := by
      simp [not_modified_check, hgh, henm, hlm]
    have hpr : process_request R req = .pass := by
      rw [hsec]
      simp [hput, hnm]
    refine ⟨process_response R req (R.handle req), ?_, ?_, ?_⟩
    · unfold resource_call
      rw [hpr]
    · rw [hhandle]
      rcases hm with hm | hm
      · exact (process_response_get_body R req body hm).1
      · exact (process_response_head_raw R req (some body) hm).1
    · rw [hhandle]
      rcases hm with hm | hm
      · rw [hm]
        simpa using (process_response_get_body R req body hm).2
      · rw [hm]
        simpa using (process_response_head_raw R req (some body) hm).2
  · intro n henm hlm hims hge
    have hnm : not_modified_check R req = some { status := 304 } := by
      simp [not_modified_check, hgh, henm, hlm, hims, hge]
    refine ⟨process_response R req (.hres { status := 304 }), ?_, hstat _⟩
    unfold resource_call
    rw [hsec]
    simp [hput, hnm]

/-- Witness for C8: `If-None-Match: "abc123"` against current tag `abc123`
is answered 304 (for `GET` and equally for `HEAD`), and a `GET` with
`If-None-Match: "def456"` reaches the handler and yields 200 with the
fresh body. -/
theorem claim_C8_conditional_get_witness :
    (∃ resp, resource_call etag_get_resource
        { method := "GET", if_none_match := some "\"abc123\"" } = some resp ∧
      resp.status = 304) ∧
    (∃ resp, resource_call etag_get_resource
        { method := "GET", if_none_match := some "\"def456\"" } = some resp ∧
      resp.status = 200 ∧ resp.content = "(body)") ∧
    (∃ resp, resource_call etag_get_resource
        { method := "HEAD", if_none_match := some "\"abc123\"" } = some resp ∧
      resp.status = 304) :=
  ⟨(claim_C8_conditional_get etag_get_resource
      { method := "GET", if_none_match := some "\"abc123\"" }
      rfl rfl rfl rfl (Or.inl rfl) rfl rfl rfl rfl rfl rfl).1 "\"abc123\"" "abc123"
      rfl rfl rfl,
   (match (claim_C8_conditional_get etag_get_resource
      { method := "GET", if_none_match := some "\"def456\"" }
      rfl rfl rfl rfl (Or.inl rfl) rfl rfl rfl rfl rfl rfl).2.1 "\"def456\"" "def456"
      "abc123" "(body)" rfl rfl rfl (by decide) rfl rfl with
    | ⟨resp, ha, hb, hc⟩ => ⟨resp, ha, hb, hc⟩),
   (claim_C8_conditional_get etag_get_resource
      { method := "HEAD", if_none_match := some "\"abc123\"" }
      rfl rfl rfl rfl (Or.inr rfl) rfl rfl rfl rfl rfl rfl).1 "\"abc123\"" "abc123"
      rfl rfl rfl⟩

/-! ### C10 -/

/-- Updating a key makes it found with the new value. -/
theorem dictFind_dictInsert_self (l : List (String × String)) (k v : String) :
    dictFind (dictInsert l (k, v)) k = some v := by
  induction l with
  | nil => simp [dictInsert, dictFind, List.find?]
  | cons a t ih =>
    by_cases hk : (a.1 == k) = true
    · simp [dictInsert, dictFind, List.find?, hk]
    · simp only [Bool.not_eq_true] at hk
      simp only [dictInsert, hk, Bool.false_eq_true, if_false]
      simp only [dictFind, List.find?, hk] at ih ⊢
      exact ih

/-- Updating one key leaves lookups of other keys unchanged. -/
theorem dictFind_dictInsert_ne (l : List (String × String)) (k v k2 : String)
    (h : k2 ≠ k) :
    dictFind (dictInsert l (k, v)) k2 = dictFind l k2 := by
  induction l with
  | nil =>
    simp only [dictInsert, dictFind, List.find?]
    rw [show (k == k2) = false from beq_eq_false_iff_ne.mpr (fun hc => h hc.symm)]
  | cons a t ih =>
    by_cases hk : (a.1 == k) = true
    · have hak : a.1 = k := by simpa using hk
      have ha2 : (a.1 == k2) = false := by
        rw [hak]
        exact beq_eq_false_iff_ne.mpr (fun hc => h hc.symm)
      simp only [dictInsert, hk, if_true]
      simp only [dictFind, List.find?, ha2]
    · simp only [Bool.not_eq_true] at hk
      simp only [dictInsert, hk, Bool.false_eq_true, if_false]
      by_cases ha2 : (a.1 == k2) = true
      · simp [dictFind, List.find?, ha2]
      · simp only [Bool.not_eq_true] at ha2
        simp only [dictFind, List.find?, ha2] at ih ⊢
        exact ih

/-- Updating one key leaves presence of other keys unchanged. -/
theorem any_dictInsert_ne (l : List (String × String)) (k v k2 : String)
    (h : k2 ≠ k) :
    (dictInsert l (k, v)).any (fun p => p.1 == k2) = l.any (fun p => p.1 == k2) := by
  induction l with
  | nil =>
    simp only [dictInsert, List.any_cons, List.any_nil, Bool.or_false]
    rw [show (k == k2) = false from beq_eq_false_iff_ne.mpr (fun hc => h hc.symm)]
  | cons a t ih =>
    by_cases hk : (a.1 == k) = true
    · simp only [dictInsert, hk, if_true, List.any_cons]
    · simp only [Bool.not_eq_true] at hk
      simp only [dictInsert, hk, Bool.false_eq_true, if_false, List.any_cons, ih]


/-- Setting a header makes it readable. -/
theorem get_header_set_header_self (resp : Response) (k v : String) :
    (resp.set_header k v).get_header k = some v :=
  dictFind_dictInsert_self resp.headers k v

/-- Setting one header leaves other headers readable unchanged. -/
theorem get_header_set_header_ne (resp : Response) (k v k2 : String) (h : k2 ≠ k) :
    (resp.set_header k v).get_header k2 = resp.get_header k2 :=
  dictFind_dictInsert_ne resp.headers k v k2 h

/-- Setting one header leaves other headers' presence unchanged. -/
theorem has_header_set_header_ne (resp : Response) (k v k2 : String) (h : k2 ≠ k) :
    (resp.set_header k v).has_header k2 = resp.has_header k2 :=
  any_dictInsert_ne resp.headers k v k2 h

/-- `patch_cache_control` never touches the header map. -/
theorem patch_cache_control_headers (resp : Response) (attrs : List String) :
    (patch_cache_control resp attrs).headers = resp.headers := by
  unfold patch_cache_control
  split <;> rfl

/-- Expiration caching never adds or removes an `ETag` header. -/
theorem response_cache_control_has_etag (R : Resource) (resp : Response) :
    (response_cache_control R resp).has_header "ETag" = resp.has_header "ETag" := by
  unfold response_cache_control
  cases R.cache_max_age with
  | unset => simp [Response.has_header, patch_cache_control_headers]
  | secs n =>
    by_cases hn : n ≤ 0 <;> simp [hn, Response.has_header, patch_cache_control_headers]
  | delta_expires d =>
    simp only [Response.has_header, patch_cache_control_headers]
    exact has_header_set_header_ne resp "Expires" (http_date d) "ETag" (by decide)

/-- Expiration caching never rewrites an `ETag` header. -/
theorem response_cache_control_get_etag (R : Resource) (resp : Response) :
    (response_cache_control R resp).get_header "ETag" = resp.get_header "ETag" := by
  unfold response_cache_control
  cases R.cache_max_age with
  | unset => simp [Response.get_header, patch_cache_control_headers]
  | secs n =>
    by_cases hn : n ≤ 0 <;> simp [hn, Response.get_header, patch_cache_control_headers]
  | delta_expires d =>
    simp only [Response.get_header, patch_cache_control_headers]
    exact get_header_set_header_ne resp "Expires" (http_date d) "ETag" (by decide)

/-- `set_etag` leaves the cache directives alone. -/
theorem set_etag_cache_control (resp : Response) :
    (set_etag resp).cache_control = resp.cache_control := by
  unfold set_etag Response.set_header
  split <;> rfl

/-- `set_last_modified` leaves the cache directives alone. -/
theorem set_last_modified_cache_control (R : Resource) (req : Request) (resp : Response) :
    (set_last_modified R req resp).cache_control = resp.cache_control := by
  unfold set_last_modified Response.set_header
  split <;> rfl

/-- `set_last_modified` leaves the `ETag` header alone. -/
theorem set_last_modified_get_etag (R : Resource) (req : Request) (resp : Response) :
    (set_last_modified R req resp).get_header "ETag" = resp.get_header "ETag" := by
  unfold set_last_modified
  split
  · rfl
  · exact get_header_set_header_ne resp "Last-Modified" _ "ETag" (by decide)

/-- With no upstream `ETag`, `set_etag` stamps the body's digest. -/
theorem set_etag_get_etag_of_absent (resp : Response) (h : resp.has_header "ETag" = false) :
    (set_etag resp).get_header "ETag"
      = some (quote_etag (md5_hexdigest resp.content)) := by
  unfold set_etag
  rw [h]
  simp only [Bool.false_eq_true, if_false]
  exact get_header_set_header_self resp "ETag" _

/-- Post-processing a `GET` response without an upstream `ETag` stamps
the digest of its (possibly error) body. -/
theorem process_response_get_sets_etag (R : Resource) (req : Request) (r : Response)
    (hm : req.method = "GET") (he : R.use_etags = true)
    (hno : r.has_header "ETag" = false) :
    (process_response R req (.hres r)).get_header "ETag"
      = some (quote_etag (md5_hexdigest r.content)) := by
  unfold process_response
  simp only [hm, he]
  simp only [show (("GET" : String) == "HEAD") = false from rfl,
    show (("GET" : String) == "GET") = true from rfl, Bool.false_eq_true, if_false,
    Bool.true_or, if_true, ite_true]
  have hrc_h : (response_cache_control R r).has_header "ETag" = false := by
    rw [response_cache_control_has_etag]; exact hno
  have hrc_c : (response_cache_control R r).content = r.content :=
    response_cache_control_content R r
  have hse : (set_etag (response_cache_control R r)).get_header "ETag"
      = some (quote_etag (md5_hexdigest r.content)) := by
    rw [set_etag_get_etag_of_absent _ hrc_h, hrc_c]
  split
  · rw [set_last_modified_get_etag, hse]
  · exact hse

/-- The directive-merging fold never loses a directive already present. -/
theorem mem_foldl_cache_insert (ds : List String) (acc : List String) (x : String)
    (hx : acc.contains x = true) :
    (ds.foldl (fun acc d => if acc.contains d then acc else acc ++ [d]) acc).contains x
      = true := by
  induction ds generalizing acc with
  | nil => exact hx
  | cons d t ih =>
    simp only [List.foldl_cons]
    apply ih
    split
    · exact hx
    · exact List.elem_iff.mpr (List.mem_append_left _ (List.elem_iff.mp hx))

/-- A positive integer `cache_max_age` stamps its `max-age` directive. -/
theorem response_cache_control_max_age (R : Resource) (resp : Response) (n : Int)
    (hs : R.cache_max_age = .secs n) (hpos : 0 < n) (hcc : resp.cache_control = []) :
    (response_cache_control R resp).cache_control.contains
      ("max-age=" ++ toString n) = true := by
  unfold response_cache_control patch_cache_control
  rw [hs]
  have hn : (n ≤ 0) = False := by simp; omega
  simp only [hn, if_false, ite_false, List.cons_append, List.nil_append,
    List.isEmpty_cons, Bool.false_eq_true, hcc, List.foldl_cons, List.contains_nil]
  apply mem_foldl_cache_insert
  simp

/-- Post-processing a ready `GET` response gives it exactly the
expiration-caching directives. -/
theorem process_response_get_cache_control (R : Resource) (req : Request) (r : Response)
    (hm : req.method = "GET") :
    (process_response R req (.hres r)).cache_control
      = (response_cache_control R r).cache_control := by
  unfold process_response
  simp only [hm]
  simp only [show (("GET" : String) == "HEAD") = false from rfl,
    show (("GET" : String) == "GET") = true from rfl, Bool.false_eq_true, if_false,
    Bool.true_or, if_true]
  split <;> split <;>
    first
      | rfl
      | simp [set_last_modified_cache_control, set_etag_cache_control]

/-- C10: `process_response` is applied to every response the resource
returns, not only after a successful handler invocation.  For any request
whose pipeline short-circuits with a terminal response: (1) the final
response is exactly the post-processed terminal response; (2) for a `GET`
with `use_etags`, the terminal (error) response gains an `ETag` computed
from its body's digest while keeping its status; (3) the body of any
terminal `HEAD` response is discarded; (4) for a `GET` under a positive
integer `cache_max_age`, the terminal response gains the `max-age` cache
directive. -/
theorem claim_C10_post_processing :
    (∀ (R : Resource) (req : Request) (r : Response), process_request R req = .term r →
      resource_call R req = some (process_response R req (.hres r))) ∧
    (∀ (R : Resource) (req : Request) (r : Response), process_request R req = .term r →
      req.method = "GET" → R.use_etags = true → r.has_header "ETag" = false →
      ∃ resp, resource_call R req = some resp ∧ resp.status = r.status ∧
        resp.get_header "ETag" = some (quote_etag (md5_hexdigest r.content))) ∧
    (∀ (R : Resource) (req : Request) (r : Response), process_request R req = .term r →
      req.method = "HEAD" →
      ∃ resp, resource_call R req = some resp ∧ resp.status = r.status ∧
        resp.content = "") ∧
    (∀ (R : Resource) (req : Request) (r : Response) (n : Int),
      process_request R req = .term r → req.method = "GET" →
      R.cache_max_age = .secs n → 0 < n → r.cache_control = [] →
      ∃ resp, resource_call R req = some resp ∧
        resp.cache_control.contains ("max-age=" ++ toString n) = true) := by
  have hbase : ∀ (R : Resource) (req : Request) (r : Response),
      process_request R req = .term r →
      resource_call R req = some (process_response R req (.hres r)) := by
    intro R req r h
    unfold resource_call
    rw [h]
  refine ⟨hbase, ?_, ?_, ?_⟩
  · intro R req r h hm he hno
    exact ⟨_, hbase R req r h, process_response_get_status R req r hm,
      process_response_get_sets_etag R req r hm he hno⟩
  · intro R req r h hm
    exact ⟨_, hbase R req r h, (process_response_head R req r hm).1,
      (process_response_head R req r hm).2⟩
  · intro R req r n h hm hs hpos hcc
    refine ⟨_, hbase R req r h, ?_⟩
    rw [process_response_get_cache_control R req r hm]
    exact response_cache_control_max_age R r n hs hpos hcc

/-- An indefinitely unavailable ETag-stamping resource. -/
def unavailable_resource : Resource :=
  { unavailable := .on, use_etags := true }

/-- Witness for C10: a `GET` against an unavailable resource is answered
with the terminal 503, which still receives an `ETag` computed from its
empty error body. -/
theorem claim_C10_post_processing_witness :
    ∃ resp, resource_call unavailable_resource { method := "GET" } = some resp ∧
      resp.status = 503 ∧
      resp.get_header "ETag" = some (quote_etag (md5_hexdigest "")) :=
  match claim_C10_post_processing.2.1 unavailable_resource { method := "GET" }
      (service_unavailable_response unavailable_resource) rfl rfl rfl rfl with
  | ⟨resp, h1, h2, h3⟩ => ⟨resp, h1, h2, h3⟩

end Restlib2
